import Mathlib

/-!
Shallow embedding of the intent-detection / tool-registry / orchestrator core of
the aware-AI backend (packages/backend/app/services/{intent_service,agent_service}.py
and packages/backend/app/services/tools/__init__.py), together with proofs about it.

Python strings are modelled as Lean `String` (the concrete inputs used are ASCII,
where Python's `.lower()`, `.strip()`, `in`, and the regex character classes
`\w`/`\s` agree with the Lean counterparts used below).  Python `float` is
modelled as `Rat`; every numeric literal the claims mention (0.95, 0.9, 0.8,
0.7, 0.5, 0.3) is exactly representable, and no claim depends on binary
floating-point rounding.
-/

/-- Python substring test: `containsSub sub l` is `sub in l` on character lists. -/
def containsSub (sub : List Char) : List Char → Bool
  | [] => sub.isEmpty
  | c :: rest => sub.isPrefixOf (c :: rest) || containsSub sub rest

/-- Python `sub in s` on strings. -/
def strContains (s sub : String) : Bool :=
  containsSub sub.toList s.toList

/-- Python regex `\w` (ASCII): letters, digits, underscore. -/
def isWordChar (c : Char) : Bool := c.isAlphanum || c == '_'

/-- Python regex `\s` (ASCII whitespace). -/
def isSpaceChar (c : Char) : Bool := c.isWhitespace

/-- Python `s.lower()` (character-wise; the inputs are ASCII). -/
def strToLower (s : String) : String := String.mk (s.toList.map Char.toLower)

/-- Python `s.upper()`. -/
def strToUpper (s : String) : String := String.mk (s.toList.map Char.toUpper)

/-- Python `s.strip()`: drop whitespace from both ends. -/
def strTrim (s : String) : String :=
  String.mk (((s.toList.dropWhile isSpaceChar).reverse.dropWhile isSpaceChar).reverse)

/-- Python `s.split(sep)` for a single-character separator. -/
def splitCharAux (sep : Char) : List Char → List Char → List (List Char)
  | [], acc => [acc.reverse]
  | c :: rest, acc =>
      if c == sep then acc.reverse :: splitCharAux sep rest []
      else splitCharAux sep rest (c :: acc)

/-- String wrapper for `splitCharAux`. -/
def splitChar (sep : Char) (s : String) : List String :=
  (splitCharAux sep s.toList []).map String.mk

/-- Python `sep.join(xs)`. -/
def strJoin (sep : String) (xs : List String) : String :=
  match xs with
  | [] => ""
  | y :: ys => ys.foldl (fun a b => a ++ sep ++ b) y

/-- Python `s.replace(" ", "_")` (single-character pattern, so a map). -/
def underscoreSpaces (s : String) : String :=
  String.mk (s.toList.map (fun c => if c == ' ' then '_' else c))

/-- Exact rational addition, expressed through `mkRat` so that it evaluates
inside the kernel (core `Rat.add` does not). -/
def ratAdd (a b : Rat) : Rat :=
  mkRat (a.num * (b.den : Int) + b.num * (a.den : Int)) (a.den * b.den)

/-- Exact rational multiplication through `mkRat`. -/
def ratMul (a b : Rat) : Rat :=
  mkRat (a.num * b.num) (a.den * b.den)

/-- Exact rational division through `mkRat` (used with positive divisors). -/
def ratDiv (a b : Rat) : Rat :=
  mkRat (a.num * (b.den : Int) * (if b.num < 0 then -1 else 1)) (a.den * b.num.natAbs)

/-- The negative-lookahead body of the first vagueness pattern of
`IntentService.VAGUE_PATTERNS`: `\s+\w+\.(pdf|docx|txt)` matched at the head of
`l`.  Because `\s`, `\w` and `.` are pairwise disjoint character classes here,
the greedy regex match is deterministic: maximal whitespace run, then maximal
word-character run, then a dot, then one of the three extensions as a prefix. -/
def lookaheadMatch (l : List Char) : Bool :=
  let ws := l.takeWhile isSpaceChar
  if ws.isEmpty then false
  else
    let l2 := l.drop ws.length
    let wr := l2.takeWhile isWordChar
    if wr.isEmpty then false
    else
      match l2.drop wr.length with
      | '.' :: rest =>
          ["pdf".toList, "docx".toList, "txt".toList].any (fun e => e.isPrefixOf rest)
      | _ => false

/-- One alternative of a word-bounded alternation matches at the current
position (`prev` is the character just before the position, if any).  All
alternatives used start and end with word characters, so `\b` amounts to the
neighbouring character not being a word character.  When `useLA` is set the
negative lookahead `(?!\s+\w+\.(pdf|docx|txt))` of pattern 1 is also enforced. -/
def matchHere (alts : List (List Char)) (useLA : Bool) (prev : Option Char) (s : List Char) : Bool :=
  alts.any (fun w =>
    w.isPrefixOf s
    && (match prev with | none => true | some c => !isWordChar c)
    && (match s.drop w.length with | [] => true | c :: _ => !isWordChar c)
    && (!useLA || !lookaheadMatch (s.drop w.length)))

/-- Scan every position of `s` for a word-bounded match of one of `alts`
(the Boolean semantics of `re.search` for these patterns). -/
def scanMatch (alts : List (List Char)) (useLA : Bool) (prev : Option Char) : List Char → Bool
  | [] => matchHere alts useLA prev []
  | c :: rest => matchHere alts useLA prev (c :: rest) || scanMatch alts useLA (some c) rest

/-- Vague pattern 1 of `IntentService.VAGUE_PATTERNS`:
`\b(this|that|it|the document|the paper|the file)\b(?!\s+\w+\.(pdf|docx|txt))`,
matched case-insensitively (modelled by lowering the query first). -/
def pattern1Match (q : String) : Bool :=
  scanMatch (["this", "that", "it", "the document", "the paper", "the file"].map String.toList)
    true none (strToLower q).toList

/-- Vague pattern 2: `^(summarize|explain|tell me about)\s*$` (case-insensitive). -/
def pattern2Match (q : String) : Bool :=
  (["summarize", "explain", "tell me about"].map String.toList).any (fun w =>
    w.isPrefixOf (strToLower q).toList && ((strToLower q).toList.drop w.length).all isSpaceChar)

/-- Vague pattern 3: `\b(something|stuff|things)\b` (case-insensitive). -/
def pattern3Match (q : String) : Bool :=
  scanMatch (["something", "stuff", "things"].map String.toList) false none (strToLower q).toList

/-- The `for pattern, clarification in self.VAGUE_PATTERNS` loop: first matching
pattern's clarification string, in source order. -/
def checkPatterns (q : String) : Option String :=
  if pattern1Match q then some "Which document are you referring to?"
  else if pattern2Match q then some "What would you like me to summarize?"
  else if pattern3Match q then some "Could you be more specific about what you're looking for?"
  else none

/-- `IntentCategory` enumeration of `intent_service.py`. -/
inductive IntentCategory where
  | document_summary
  | document_search
  | document_specific
  | document_list
  | memory_recall
  | general_chat
  | vague_query
deriving DecidableEq, BEq, Repr

/-- The `.value` string of each `IntentCategory` member. -/
def categoryValue : IntentCategory → String
  | .document_summary => "document_summary"
  | .document_search => "document_search"
  | .document_specific => "document_specific"
  | .document_list => "document_list"
  | .memory_recall => "memory_recall"
  | .general_chat => "general_chat"
  | .vague_query => "vague_query"

/-- The `IntentCategory(s)` enum constructor: `some` on a valid value string,
`none` (a Python `ValueError`) otherwise. -/
def intentCategoryOfString (s : String) : Option IntentCategory :=
  if s == "document_summary" then some .document_summary
  else if s == "document_search" then some .document_search
  else if s == "document_specific" then some .document_specific
  else if s == "document_list" then some .document_list
  else if s == "memory_recall" then some .memory_recall
  else if s == "general_chat" then some .general_chat
  else if s == "vague_query" then some .vague_query
  else none

/-- `DetectedIntent` dataclass.  `extracted_entities` is kept as an `Option` so
that the `__post_init__` normalisation (a `None` argument becomes `{}`) is
observable; see `DetectedIntent.make`. -/
structure DetectedIntent where
  category : IntentCategory
  confidence : Rat
  tools_to_use : List String
  is_vague : Bool
  clarification_message : Option String
  clarification_options : Option (List String)
  extracted_entities : Option (List (String × String))
deriving DecidableEq, Repr

/-- Decidable equality for `Except` results (used to state parser outcomes). -/
instance exceptDecEq {ε α : Type} [DecidableEq ε] [DecidableEq α] :
    DecidableEq (Except ε α) := fun a b =>
  match a, b with
  | .ok x, .ok y =>
      if h : x = y then .isTrue (by rw [h]) else .isFalse (by simp [h])
  | .error x, .error y =>
      if h : x = y then .isTrue (by rw [h]) else .isFalse (by simp [h])
  | .ok _, .error _ => .isFalse (by simp)
  | .error _, .ok _ => .isFalse (by simp)

/-- `DetectedIntent` construction followed by `__post_init__`: a `none`
(`None`) entities argument is replaced by the empty mapping, so the stored
field is never `none`. -/
def DetectedIntent.make (c : IntentCategory) (conf : Rat) (tools : List String)
    (iv : Bool) (cm : Option String) (co : Option (List String))
    (eo : Option (List (String × String))) : DetectedIntent :=
  ⟨c, conf, tools, iv, cm, co, some (eo.getD [])⟩

/-- `IntentService.INTENT_KEYWORDS`, in source (insertion) order. -/
def intentKeywords : List (IntentCategory × List String) :=
  [ (.document_summary,
      ["summarize", "summary", "key points", "main points", "overview",
       "what does it say", "tell me about", "explain the paper",
       "highlights", "tldr", "brief", "recap"]),
    (.document_search,
      ["find", "search", "look for", "where does it say", "locate",
       "which part", "mentions", "refers to", "contains"]),
    (.document_specific,
      ["@", ".pdf", ".docx", ".txt", "the document", "the file",
       "that paper", "this paper", "uploaded file", "my document"]),
    (.document_list,
      ["what documents", "list files", "my uploads", "what did i upload",
       "show documents", "available files", "uploaded documents"]),
    (.memory_recall,
      ["remember", "recall", "we discussed", "earlier", "last time",
       "previously", "you said", "i told you", "our conversation"]) ]

/-- The document-reference phrases scanned by `_check_vagueness`. -/
def doc_refs : List String :=
  ["this paper", "the paper", "this document", "the document",
   "uploaded file", "my file", "the file"]

/-- Association-list get, modelling Python `dict.get`. -/
def assocGet {α β : Type} [BEq α] (m : List (α × β)) (k : α) : Option β :=
  (m.find? (fun p => p.1 == k)).map (fun p => p.2)

/-- Association-list insert, modelling Python `dict[k] = v` (replace the
existing binding in place, else append; keys stay unique). -/
def assocInsert {α β : Type} [BEq α] : List (α × β) → α → β → List (α × β)
  | [], k, v => [(k, v)]
  | (k0, v0) :: rest, k, v =>
      if k0 == k then (k, v) :: rest else (k0, v0) :: assocInsert rest k v

/-- The keyword-scoring step: number of keywords occurring in the lower-cased
query (`if keyword in query_lower: score += 1`). -/
def keywordScore (query_lower : String) (kws : List String) : Nat :=
  kws.countP (fun k => strContains query_lower k)

/-- Python `max(scores, key=scores.get)` over the (insertion-ordered) score
list: the first key of maximal score (ties keep the earlier element). -/
def argmaxFirst (scores : List (IntentCategory × Nat)) : IntentCategory :=
  match scores with
  | [] => .general_chat
  | x :: xs => (xs.foldl (fun b y => if y.2 > b.2 then y else b) x).1

/-- The `for ref in doc_refs` loop of `_check_vagueness` (reached only when
more than one document is available). -/
def docRefLoop (qlower : String) (docs : List String) : List String → Bool × Option String
  | [] => (false, none)
  | ref :: rest =>
      if strContains qlower ref then
        if docs.any (fun d => strContains qlower (strToLower d)) then
          docRefLoop qlower docs rest
        else
          (true, some ("You have " ++ toString docs.length ++ " documents: "
            ++ strJoin ", " docs ++ ". Which one would you like me to use?"))
      else docRefLoop qlower docs rest

/-- `IntentService._check_vagueness`. -/
def check_vagueness (query : String) (docs : List String) : Bool × Option String :=
  match checkPatterns query with
  | some clarification =>
      if docs.length > 1
          && (strContains (strToLower clarification) "document"
              || strContains (strToLower clarification) "paper") then
        (true, some ("You have " ++ toString docs.length
          ++ " documents. Which one would you like me to use?"))
      else (true, some clarification)
  | none =>
      if docs.length > 1 then docRefLoop (strToLower query) docs doc_refs
      else (false, none)

/-- `IntentService._get_tools_for_intent`. -/
def get_tools_for_intent : IntentCategory → List String
  | .document_summary => ["get_all_user_documents"]
  | .document_search => ["search_documents"]
  | .document_specific => ["get_document_by_name"]
  | .document_list => ["list_documents"]
  | .memory_recall => ["search_memories", "get_recent_memories"]
  | .general_chat => []
  | .vague_query => []

/-- The scanner behind `re.search(r'@(\S+)', query)`: the first `@` followed by
at least one non-whitespace character; the captured group is the maximal
non-whitespace run after that `@`. -/
def atExtractAux : List Char → Option (List Char)
  | [] => none
  | '@' :: rest =>
      let tok := rest.takeWhile (fun c => !isSpaceChar c)
      if tok.isEmpty then atExtractAux rest else some tok
  | _ :: rest => atExtractAux rest

/-- `re.search(r'@(\S+)', query)` returning the captured filename. -/
def atExtract (q : String) : Option String :=
  (atExtractAux q.toList).map String.mk

/-- The `for doc in available_documents` scan: first available document whose
lower-cased name occurs in the lower-cased query. -/
def findDocMatch (docs : List String) (query_lower : String) : Option String :=
  docs.find? (fun d => strContains query_lower (strToLower d))

/-- The `scores` dict of `detect_intent_fast`: each category of
`INTENT_KEYWORDS` paired with its keyword count, in insertion order. -/
def fastScores (query_lower : String) : List (IntentCategory × Nat) :=
  intentKeywords.map (fun p => (p.1, keywordScore query_lower p.2))

/-- `best_category = max(scores, key=scores.get) if scores else GENERAL_CHAT`. -/
def fastBestCategory (query_lower : String) : IntentCategory :=
  if (fastScores query_lower).isEmpty then .general_chat
  else argmaxFirst (fastScores query_lower)

/-- `best_score = scores.get(best_category, 0)`. -/
def fastBestScore (query_lower : String) : Nat :=
  (assocGet (fastScores query_lower) (fastBestCategory query_lower)).getD 0

/-- `max_possible = len(self.INTENT_KEYWORDS.get(best_category, [])) or 1`. -/
def fastMaxPossible (query_lower : String) : Nat :=
  let kwlen := ((assocGet intentKeywords (fastBestCategory query_lower)).getD []).length
  if kwlen = 0 then 1 else kwlen

/-- `confidence = min(best_score / max_possible + 0.3, 0.95) if best_score > 0
else 0.5`. -/
def fastConfidence (query_lower : String) : Rat :=
  if fastBestScore query_lower > 0 then
    min (ratAdd (ratDiv (mkRat (fastBestScore query_lower) 1)
          (mkRat (fastMaxPossible query_lower) 1)) (mkRat 3 10))
      (mkRat 95 100)
  else mkRat 1 2

/-- `IntentService.detect_intent_fast`.  The Python `available_documents=None`
default and an empty list behave identically everywhere in the source
(`if available_documents:` and `available_documents or []`), so the document
list is modelled as a plain `List String`. -/
def detect_intent_fast (query : String) (available_documents : List String) : DetectedIntent :=
  let query_lower := strTrim (strToLower query)
  match atExtract query with
  | some filename =>
      DetectedIntent.make .document_specific (mkRat 95 100) ["get_document_by_name"]
        false none none (some [("filename", filename)])
  | none =>
    match findDocMatch available_documents query_lower with
    | some doc =>
        DetectedIntent.make .document_specific (mkRat 9 10) ["get_document_by_name"]
          false none none (some [("filename", doc)])
    | none =>
      let best_category := fastBestCategory query_lower
      let vg := check_vagueness query_lower available_documents
      if vg.1 && (best_category == .document_summary
                  || best_category == .document_search
                  || best_category == .document_specific) then
        DetectedIntent.make .vague_query (mkRat 8 10) [] true vg.2
          (some available_documents) none
      else
        DetectedIntent.make best_category (fastConfidence query_lower)
          (get_tools_for_intent best_category) false none none none

/-- A Python parameter value as used by `_build_tool_params` (strings and ints). -/
inductive PVal where
  | str (s : String)
  | int (n : Int)
deriving DecidableEq, Repr

/-- The keyword-argument dictionary passed to a tool handler. -/
def Params := List (String × PVal)
deriving instance DecidableEq, Repr for Params

/-- `ToolResult` dataclass of `tools/__init__.py` (the opaque `data` payload is
modelled as an optional string). -/
structure ToolResult where
  data : Option String
  summary : String
  success : Bool
  error : Option String
deriving DecidableEq, Repr

/-- The possible outcomes of calling a tool handler: it returns a `ToolResult`,
returns some other value, or raises an exception carrying a message. -/
inductive HandlerOutcome where
  | result (r : ToolResult)
  | value (v : String)
  | raises (msg : String)

/-- A `TOOL_REGISTRY` entry (the `is_async` marker only selects `await` in the
source and has no observable effect here). -/
structure ToolEntry where
  name : String
  description : String
  parameters : List (String × String)
  handler : Params → HandlerOutcome

/-- The global `TOOL_REGISTRY` dict, as an insertion-ordered association list. -/
def Registry := List (String × ToolEntry)

/-- `register_tool(name, description, parameters)(func)`: the decorator body
`TOOL_REGISTRY[name] = {...}` — a plain dict assignment. -/
def register_tool (reg : Registry) (name description : String)
    (parameters : List (String × String)) (handler : Params → HandlerOutcome) : Registry :=
  assocInsert reg name ⟨name, description, parameters, handler⟩

/-- `TOOL_REGISTRY.get(name)`. -/
def registryLookup (reg : Registry) (name : String) : Option ToolEntry :=
  assocGet reg name

/-- `execute_tool(name, params, user_id)`.  The second component records which
handlers were invoked (empty exactly when no handler ran); the function itself
is total — exceptions raised by the handler are the `raises` outcome and are
converted to a failed `ToolResult`, never propagated. -/
def execute_tool (reg : Registry) (name : String) (params : Params) (user_id : String) :
    ToolResult × List String :=
  match registryLookup reg name with
  | none =>
      (⟨none, "Tool '" ++ name ++ "' not found", false, some ("Unknown tool: " ++ name)⟩, [])
  | some t =>
      let ps := assocInsert params "user_id" (.str user_id)
      match t.handler ps with
      | .result r => (r, [name])
      | .value v =>
          (⟨some v, "Tool '" ++ name ++ "' executed successfully", true, none⟩, [name])
      | .raises msg =>
          (⟨none, "Error executing '" ++ name ++ "': " ++ msg, false, some msg⟩, [name])

/-- Split a string at its first occurrence of `sep`, Python `s.split(sep, 1)`
restricted to the two-part case (`none` when `sep` does not occur). -/
def splitFirstCh (sep : Char) : List Char → Option (List Char × List Char)
  | [] => none
  | c :: r =>
      if c == sep then some ([], r)
      else (splitFirstCh sep r).map (fun p => (c :: p.1, p.2))

/-- String wrapper for `splitFirstCh`. -/
def splitFirstStr (sep : Char) (s : String) : Option (String × String) :=
  (splitFirstCh sep s.toList).map (fun p => (String.mk p.1, String.mk p.2))

/-- The line-parsing loop of `_parse_llm_response`: split the stripped response
on newlines, and for each line containing a colon store
`parsed[key.strip().upper()] = value.strip()`. -/
def parsedMap (response : String) : List (String × String) :=
  (splitChar '\n' (strTrim response)).foldl
    (fun m line =>
      match splitFirstStr ':' line with
      | some (k, v) => assocInsert m (strToUpper (strTrim k)) (strTrim v)
      | none => m)
    []

/-- Nat value of a digit run. -/
def digitsVal (l : List Char) : Nat :=
  l.foldl (fun a c => a * 10 + (c.toNat - 48)) 0

/-- The exponent/assembly tail of `parseFloatPy`. -/
def parseFloatExp (sign : Int) (ipart : Nat) (fp : List Char) (rest : List Char) : Option Rat :=
  let mant : Rat := mkRat (sign * (ipart * 10 ^ fp.length + digitsVal fp) : Int)
    (10 ^ fp.length)
  match rest with
  | [] => some mant
  | c :: r =>
      if c == 'e' || c == 'E' then
        let se : Int × List Char := match r with
          | '+' :: rr => ((1 : Int), rr)
          | '-' :: rr => ((-1 : Int), rr)
          | _ => ((1 : Int), r)
        let ed := se.2.takeWhile Char.isDigit
        if ed.isEmpty || ed.length ≠ se.2.length then none
        else if se.1 = (1 : Int) then some (ratMul mant (mkRat (10 ^ digitsVal ed) 1))
        else some (ratDiv mant (mkRat (10 ^ digitsVal ed) 1))
      else none

/-- Python `float(s)` on the decimal/scientific grammar
`[+-]? (digits [. digits?] | . digits) ([eE] [+-]? digits)?` after stripping
whitespace; `none` models the `ValueError` raised on anything else.  (Python
additionally accepts `inf`/`nan` spellings and digit underscores; no value in
this code base or in the claims exercises those.) -/
def parseFloatPy (s : String) : Option Rat :=
  let l := (strTrim s).toList
  let sl := match l with
    | '+' :: r => ((1 : Int), r)
    | '-' :: r => ((-1 : Int), r)
    | _ => ((1 : Int), l)
  let ip := sl.2.takeWhile Char.isDigit
  let l2 := sl.2.drop ip.length
  match l2 with
  | '.' :: r =>
      let fp := r.takeWhile Char.isDigit
      let l3 := r.drop fp.length
      if ip.isEmpty && fp.isEmpty then none
      else parseFloatExp sl.1 (digitsVal ip) fp l3
  | _ => if ip.isEmpty then none else parseFloatExp sl.1 (digitsVal ip) [] l2

/-- The parsed `INTENT:` label after normalisation:
`parsed.get("INTENT", "general_chat").lower().replace(" ", "_")`. -/
def parsedIntentStr (response : String) : String :=
  underscoreSpaces (strToLower
    ((((parsedMap response).find? (fun p => p.1 == "INTENT")).map (fun p => p.2)
      |>.getD "general_chat")))

/-- The category produced by `_parse_llm_response`: the enum value of the
normalised label, degrading to `general_chat` on a `ValueError`. -/
def parsedCategory (response : String) : IntentCategory :=
  (intentCategoryOfString (parsedIntentStr response)).getD .general_chat

/-- `float(parsed.get("CONFIDENCE", "0.7"))`; `none` is the `ValueError` case. -/
def parsedConfidence (response : String) : Option Rat :=
  parseFloatPy ((assocGet (parsedMap response) "CONFIDENCE").getD "0.7")

/-- The tool list of `_parse_llm_response`:
`[t.strip() for t in tools_str.split(",") if t.strip() and t.strip() != "none"]`. -/
def parsedTools (response : String) : List String :=
  (((splitChar ',' ((assocGet (parsedMap response) "TOOLS").getD "none"))).map strTrim).filter
    (fun t => t ≠ "" && t ≠ "none")

/-- The `ENTITIES:` parsing loop of `_parse_llm_response`. -/
def parseEntities (entities_str : String) : List (String × String) :=
  if entities_str ≠ "" && strToLower entities_str ≠ "none" then
    (splitChar ',' entities_str).foldl
      (fun acc pair =>
        match splitFirstStr '=' pair with
        | some (k, v) => assocInsert acc (strTrim k) (strTrim v)
        | none => acc)
      []
  else []

/-- `IntentService._parse_llm_response`.  The `Except` error is the Python
`ValueError` raised by `float(...)` on an unparsable `CONFIDENCE:` value; it
propagates out of `_parse_llm_response` (and is caught by the `try` block of
`detect_intent_with_llm`). -/
def parse_llm_response (response : String) (available_documents : List String) :
    Except String DetectedIntent :=
  let m := parsedMap response
  let category := parsedCategory response
  match parsedConfidence response with
  | none =>
      .error ("could not convert string to float: "
        ++ (assocGet m "CONFIDENCE").getD "0.7")
  | some confidence =>
      let tools := parsedTools response
      let is_vague := strToLower ((assocGet m "IS_VAGUE").getD "false") == "true"
      let clarification :=
        match assocGet m "CLARIFICATION" with
        | none => none
        | some c => if c ≠ "" && strToLower c == "none" then none else some c
      let entities := parseEntities ((assocGet m "ENTITIES").getD "none")
      .ok (DetectedIntent.make category confidence
        (if tools.isEmpty then get_tools_for_intent category else tools)
        is_vague clarification
        (if is_vague then some available_documents else none)
        (some entities))

/-- `IntentService.detect_intent_with_llm`, with the LLM call abstracted as an
oracle: `llmResponse = none` models `generate_non_streaming` raising, and
`some resp` models it returning `resp`.  The prompt construction and
conversation history only feed that call and are not otherwise observable. -/
def detect_intent_with_llm (query : String) (available_documents : List String)
    (llmResponse : Option String) : DetectedIntent :=
  let fast := detect_intent_fast query available_documents
  if Rat.blt (mkRat 85 100) fast.confidence && !fast.is_vague then fast
  else
    match llmResponse with
    | none => fast
    | some resp =>
        match parse_llm_response resp available_documents with
        | .ok r => r
        | .error _ => fast

/-- `AgentEvent` dataclass of `agent_service.py`; only the fields relevant to a
given `type` are populated (the rest stay `none`, matching the sparse
`to_dict` encoding). -/
structure AgentEvent where
  type : String
  content : Option String
  tool : Option String
  params : Option Params
  summary : Option String
  message : Option String
  options : Option (List String)
  intent : Option String
  confidence : Option Rat
  conversation_id : Option String
deriving DecidableEq, Repr

/-- `AgentEvent(type="thinking", content=...)`. -/
def thinkingEv (c : String) : AgentEvent :=
  ⟨"thinking", some c, none, none, none, none, none, none, none, none⟩

/-- `AgentEvent(type="intent", intent=..., confidence=...)`. -/
def intentEv (cat : String) (conf : Rat) : AgentEvent :=
  ⟨"intent", none, none, none, none, none, none, some cat, some conf, none⟩

/-- `AgentEvent(type="clarification", message=..., options=...)`. -/
def clarificationEv (msg : Option String) (opts : List String) : AgentEvent :=
  ⟨"clarification", none, none, none, none, msg, some opts, none, none, none⟩

/-- `AgentEvent(type="tool_call", tool=..., params=...)`. -/
def toolCallEv (tool : String) (ps : Params) : AgentEvent :=
  ⟨"tool_call", none, some tool, some ps, none, none, none, none, none, none⟩

/-- `AgentEvent(type="tool_result", tool=..., summary=...)`. -/
def toolResultEv (tool : String) (s : String) : AgentEvent :=
  ⟨"tool_result", none, some tool, none, some s, none, none, none, none, none⟩

/-- `AgentEvent(type="chunk", content=...)`. -/
def chunkEv (c : String) : AgentEvent :=
  ⟨"chunk", some c, none, none, none, none, none, none, none, none⟩

/-- `AgentEvent(type="done", conversation_id=...)`. -/
def doneEv (cid : String) : AgentEvent :=
  ⟨"done", none, none, none, none, none, none, none, none, some cid⟩

/-- `AgentEvent(type="error", content=...)`. -/
def errorEv (c : String) : AgentEvent :=
  ⟨"error", some c, none, none, none, none, none, none, none, none⟩

/-- Python `intent.clarification_options or available_docs`: `None` and the
empty list are both falsy and default to the document inventory. -/
def pyOrList (o : Option (List String)) (d : List String) : List String :=
  match o with
  | some l => if l.isEmpty then d else l
  | none => d

/-- `AgentOrchestrator._build_tool_params`.  Accessing
`intent.extracted_entities.get(...)` on a `None` mapping would raise an
`AttributeError`; the `Except.error` case makes that fault observable (it is
unreachable for intents built by `DetectedIntent.make`, see `c10` below). -/
def build_tool_params (tool_name : String) (query : String) (intent : DetectedIntent) :
    Except String Params :=
  match tool_name with
  | "search_documents" => .ok [("query", .str query), ("limit", .int 10)]
  | "get_all_user_documents" => .ok [("max_chunks", .int 50)]
  | "get_document_by_name" =>
      match intent.extracted_entities with
      | none => .error "AttributeError: NoneType object has no attribute get"
      | some ents =>
          let f0 := assocGet ents "filename"
          let truthy := match f0 with | some s => s != "" | none => false
          let f1 := if truthy then f0 else
            match atExtract query with
            | some m => some m
            | none => f0
          .ok [("filename", .str (match f1 with | some s => s | none => "")),
               ("max_chunks", .int 30)]
  | "list_documents" => .ok []
  | "search_memories" => .ok [("query", .str query), ("limit", .int 5)]
  | "get_recent_memories" => .ok [("limit", .int 10)]
  | _ => .ok []

/-- The `for tool_name in intent.tools_to_use` loop of
`AgentOrchestrator.process_query`: per tool, a `tool_call` event (parameters
with the `user_id` key stripped), dispatch through `execute_tool`, and a
`tool_result` event carrying the summary.  The Boolean is true when an
uncaught fault (the `AttributeError` of `build_tool_params`) aborted the
round; the outer `except` then surfaces it as a single terminal `error`
event and nothing further runs. -/
def toolRound (query : String) (intent : DetectedIntent) (reg : Registry) (uid : String) :
    List String → List AgentEvent × Bool
  | [] => ([], false)
  | tname :: rest =>
      match build_tool_params tname query intent with
      | .error msg => ([errorEv ("An error occurred: " ++ msg)], true)
      | .ok ps =>
          let r := (execute_tool reg tname ps uid).1
          let tail := toolRound query intent reg uid rest
          (toolCallEv tname (ps.filter (fun p => p.1 ≠ "user_id"))
            :: toolResultEv tname r.summary :: tail.1, tail.2)

/-- The event sequence of `AgentOrchestrator.process_query` on its normal
(non-faulting) control path, with the effects of the three collaborators
supplied as oracles: `available_docs` is what `_get_user_documents` returned,
`intent` is what `detect_intent_with_llm` returned, and `gen_chunks` is the
fragment sequence streamed by `_generate_response`. -/
def process_query_events (query uid cid : String) (available_docs : List String)
    (intent : DetectedIntent) (reg : Registry) (gen_chunks : List String) : List AgentEvent :=
  thinkingEv "Checking your available documents..."
    :: thinkingEv "Analyzing your request..."
    :: intentEv (categoryValue intent.category) intent.confidence
    :: (if intent.is_vague then
          [clarificationEv intent.clarification_message
            (pyOrList intent.clarification_options available_docs)]
        else
          let prep :=
            if intent.tools_to_use.isEmpty then []
            else [thinkingEv ("Preparing to use "
              ++ toString intent.tools_to_use.length ++ " tool(s)...")]
          let tr := toolRound query intent reg uid intent.tools_to_use
          if tr.2 then prep ++ tr.1
          else prep ++ tr.1 ++ [thinkingEv "Generating response..."]
            ++ gen_chunks.map chunkEv ++ [doneEv cid])

/-- Number of events of a given `type` tag. -/
def countType (evs : List AgentEvent) (t : String) : Nat :=
  (evs.filter (fun e => e.type == t)).length

/-- A concrete registry for exercising fault isolation: `search_memories`
raises, `get_recent_memories` succeeds. -/
def regFaulty : Registry :=
  register_tool
    (register_tool [] "search_memories" "Search stored memories" [("query", "string")]
      (fun _ => .raises "boom"))
    "get_recent_memories" "Fetch recent memories" [("limit", "integer")]
    (fun _ => .value "ok")

theorem assocGet_insert {β : Type} (m : List (String × β)) (k : String) (v : β) :
    assocGet (assocInsert m k v) k = some v := by
  induction m with
  | nil => simp [assocInsert, assocGet, List.find?]
  | cons p rest ih =>
      by_cases h : p.1 == k
      · simp [assocInsert, h, assocGet, List.find?]
      · simpa [assocInsert, h, assocGet, List.find?] using ih

/-- C1: for every query string containing an `@`-prefixed token (whatever the
available-documents list and whatever keyword triggers appear in the query),
`detect_intent_fast` returns `document_specific` with confidence 0.95 and
extracts the token following `@` verbatim as entity `filename`. -/
theorem c1_at_marker (q : String) (docs : List String) (f : String)
    (h : atExtract q = some f) :
    detect_intent_fast q docs =
      DetectedIntent.make .document_specific (mkRat 95 100) ["get_document_by_name"]
        false none none (some [("filename", f)]) := by
  simp only [detect_intent_fast, h]

theorem c1_at_marker_witness :
    atExtract "please summarize @report.pdf and find stuff" = some "report.pdf"
    ∧ detect_intent_fast "please summarize @report.pdf and find stuff" ["notes.txt"] =
        DetectedIntent.make .document_specific (mkRat 95 100) ["get_document_by_name"]
          false none none (some [("filename", "report.pdf")]) :=
  ⟨by decide, c1_at_marker "please summarize @report.pdf and find stuff" ["notes.txt"]
    "report.pdf" (by decide)⟩

/-- C3: executing an unregistered tool name returns a failed `ToolResult`
whose error is exactly `"Unknown tool: <name>"`, invokes no handler (the
invocation trace is empty), and raises nothing (the dispatcher is total). -/
theorem c3_unknown_tool (reg : Registry) (name : String) (params : Params) (uid : String)
    (h : registryLookup reg name = none) :
    execute_tool reg name params uid =
      (⟨none, "Tool '" ++ name ++ "' not found", false,
        some ("Unknown tool: " ++ name)⟩, []) := by
  simp only [execute_tool, h]

theorem c3_unknown_tool_witness :
    registryLookup [] "nonexistent_tool" = none
    ∧ execute_tool [] "nonexistent_tool" [] "user-1" =
        (⟨none, "Tool 'nonexistent_tool' not found", false,
          some "Unknown tool: nonexistent_tool"⟩, []) :=
  ⟨rfl, c3_unknown_tool [] "nonexistent_tool" [] "user-1" rfl⟩

/-- C9 counterexample: registering the same name twice silently overwrites —
afterwards the registry holds a single entry for the name and dispatch runs
the second handler (its payload "two" is returned), so the registry neither
keeps the first handler nor fails fast. -/
theorem c9_counterexample :
    (execute_tool
        (register_tool
          (register_tool [] "t" "first" [] (fun _ => .value "one"))
          "t" "second" [] (fun _ => .value "two"))
        "t" [] "u").1.data = some "two"
    ∧ (register_tool
        (register_tool [] "t" "first" [] (fun _ => .value "one"))
        "t" "second" [] (fun _ => .value "two")).length = 1 :=
  ⟨rfl, rfl⟩

/-- C9 (amended): re-registering a name replaces the entry — the lookup after
two registrations of the same name returns the second registration's entry
(description, schema and handler), with no error and no collision handling. -/
theorem c9_overwrite (reg : Registry) (name d1 d2 : String)
    (p1 p2 : List (String × String)) (h1 h2 : Params → HandlerOutcome) :
    registryLookup (register_tool (register_tool reg name d1 p1 h1) name d2 p2 h2) name =
      some ⟨name, d2, p2, h2⟩ := by
  simp only [register_tool, registryLookup]
  exact assocGet_insert _ name _

/-- C10: every `DetectedIntent`, however constructed (entities omitted,
passed as `None`, or given explicitly), carries a non-`None` entities mapping
after `__post_init__`, so the orchestrator's `_build_tool_params` lookup of
the `filename` entity for `get_document_by_name` always succeeds and never
faults on a missing mapping. -/
theorem c10_entities_never_none (c : IntentCategory) (conf : Rat) (tools : List String)
    (iv : Bool) (cm : Option String) (co : Option (List String))
    (eo : Option (List (String × String))) (q : String) :
    (DetectedIntent.make c conf tools iv cm co eo).extracted_entities.isSome = true
    ∧ ∃ ps, build_tool_params "get_document_by_name" q
        (DetectedIntent.make c conf tools iv cm co eo) = Except.ok ps := by
  cases eo with
  | none => exact ⟨rfl, _, rfl⟩
  | some e => exact ⟨rfl, _, rfl⟩

theorem docRefLoop_fst_isSome (ql : String) (docs : List String) :
    ∀ refs, (docRefLoop ql docs refs).1 = true → (docRefLoop ql docs refs).2.isSome = true := by
  intro refs
  induction refs with
  | nil => intro h; simp [docRefLoop] at h
  | cons r rest ih =>
      intro h
      by_cases h1 : strContains ql r
      · by_cases h2 : docs.any (fun d => strContains ql (strToLower d))
        · simp only [docRefLoop, h1, h2, if_true] at h ⊢; exact ih h
        · simp [docRefLoop, h1, h2]
      · simp only [docRefLoop, h1, if_false, Bool.false_eq_true] at h ⊢
        exact ih h

theorem check_vagueness_isSome (q : String) (docs : List String)
    (h : (check_vagueness q docs).1 = true) : (check_vagueness q docs).2.isSome = true := by
  unfold check_vagueness at h ⊢
  cases hP : checkPatterns q with
  | some c =>
      rw [hP] at h
      dsimp only at h ⊢
      split <;> simp
  | none =>
      rw [hP] at h
      dsimp only at h ⊢
      by_cases hl : docs.length > 1
      · simp only [hl, if_true] at h ⊢
        exact docRefLoop_fst_isSome _ _ _ h
      · simp [hl] at h

/-- C2 counterexample: on the LLM fallback path, `_parse_llm_response` can
produce a `DetectedIntent` with `is_vague = true` whose tool list is nonempty
(the static fallback mapping for the parsed category) and whose clarification
message is `None`, violating the claimed invariant. -/
theorem c2_counterexample :
    parse_llm_response "INTENT: document_summary\nIS_VAGUE: true" [] =
      Except.ok (DetectedIntent.make .document_summary (mkRat 7 10)
        ["get_all_user_documents"] true none (some []) (some []))
    ∧ (DetectedIntent.make .document_summary (mkRat 7 10)
        ["get_all_user_documents"] true none (some []) (some [])).is_vague = true
    ∧ (DetectedIntent.make .document_summary (mkRat 7 10)
        ["get_all_user_documents"] true none (some []) (some [])).tools_to_use ≠ []
    ∧ (DetectedIntent.make .document_summary (mkRat 7 10)
        ["get_all_user_documents"] true none (some []) (some [])).clarification_message
        = none := by
  refine ⟨by decide, rfl, by decide, rfl⟩

/-- C2 (amended): every `DetectedIntent` produced by the fast classifier
`detect_intent_fast` with `is_vague = true` has an empty `tools_to_use` and a
present clarification message; the LLM fallback path `_parse_llm_response`
does not guarantee this invariant. -/
theorem c2_fast_vague_invariant (q : String) (docs : List String)
    (h : (detect_intent_fast q docs).is_vague = true) :
    (detect_intent_fast q docs).tools_to_use = []
    ∧ (detect_intent_fast q docs).clarification_message.isSome = true := by
  simp only [detect_intent_fast] at h ⊢
  cases hA : atExtract q with
  | some f => rw [hA] at h; simp [DetectedIntent.make] at h
  | none =>
      rw [hA] at h
      dsimp only at h ⊢
      cases hD : findDocMatch docs (strTrim (strToLower q)) with
      | some d => rw [hD] at h; simp [DetectedIntent.make] at h
      | none =>
          rw [hD] at h
          dsimp only at h ⊢
          split at h
          · rename_i hc
            rw [if_pos hc]
            exact ⟨rfl, check_vagueness_isSome _ _ (Bool.and_elim_left hc)⟩
          · simp [DetectedIntent.make] at h

theorem c2_fast_vague_invariant_witness :
    (detect_intent_fast "summarize this" ["a.pdf", "b.pdf"]).is_vague = true
    ∧ ((detect_intent_fast "summarize this" ["a.pdf", "b.pdf"]).tools_to_use = []
      ∧ (detect_intent_fast "summarize this" ["a.pdf", "b.pdf"]).clarification_message.isSome
          = true) :=
  ⟨by decide, c2_fast_vague_invariant "summarize this" ["a.pdf", "b.pdf"] (by decide)⟩

/-- C6 counterexample: for the query "hello" (no @-marker, no document name,
zero keyword matches in every category, not vague) the fast classifier
returns `document_summary`, not `general_chat`: with all scores zero,
`max(scores, key=scores.get)` returns the first enumerated key, and the
`general_chat` fallback is only taken when the scores dict is empty, which
never happens. -/
theorem c6_counterexample :
    (detect_intent_fast "hello" []).category = IntentCategory.document_summary
    ∧ (detect_intent_fast "hello" []).category ≠ IntentCategory.general_chat
    ∧ (detect_intent_fast "hello" []).confidence = mkRat 1 2 :=
  ⟨by decide, by decide, by decide⟩

/-- C6 (amended): for every query with no @-marker, no available-document name
contained in the query, zero keyword-trigger matches in every category, and no
vagueness-pattern hit, the fast classifier returns `document_summary` — the
first enumerated category, which ties at score zero — with confidence 0.5 and
that category's static tool list. -/
theorem c6_zero_score_default (q : String) (docs : List String)
    (h1 : atExtract q = none)
    (h2 : findDocMatch docs (strTrim (strToLower q)) = none)
    (h3 : (intentKeywords.all
      (fun p => keywordScore (strTrim (strToLower q)) p.2 == 0)) = true)
    (h4 : check_vagueness (strTrim (strToLower q)) docs = (false, none)) :
    detect_intent_fast q docs =
      DetectedIntent.make .document_summary (mkRat 1 2) ["get_all_user_documents"]
        false none none none := by
  simp only [intentKeywords, List.all_cons, List.all_nil, Bool.and_true,
    Bool.and_eq_true, beq_iff_eq] at h3
  obtain ⟨s1, s2, s3, s4, s5⟩ := h3
  have hs : fastScores (strTrim (strToLower q)) =
      [(.document_summary, 0), (.document_search, 0), (.document_specific, 0),
       (.document_list, 0), (.memory_recall, 0)] := by
    simp only [fastScores, intentKeywords, List.map_cons, List.map_nil, s1, s2, s3, s4, s5]
  have hbc : fastBestCategory (strTrim (strToLower q)) = .document_summary := by
    simp only [fastBestCategory, hs]
    decide
  have hcf : fastConfidence (strTrim (strToLower q)) = mkRat 1 2 := by
    simp only [fastConfidence, fastBestScore, hbc, hs]
    rfl
  simp only [detect_intent_fast, h1, h2, h4, hbc, hcf]
  rfl

theorem c6_zero_score_default_witness :
    detect_intent_fast "hello" [] =
      DetectedIntent.make .document_summary (mkRat 1 2) ["get_all_user_documents"]
        false none none none :=
  c6_zero_score_default "hello" [] (by decide) rfl (by decide) (by decide)

theorem docRefLoop_hit (ql : String) (docs : List String)
    (hspec : docs.any (fun d => strContains ql (strToLower d)) = false) :
    ∀ refs, refs.any (fun r => strContains ql r) = true →
      docRefLoop ql docs refs =
        (true, some ("You have " ++ toString docs.length ++ " documents: "
          ++ strJoin ", " docs ++ ". Which one would you like me to use?")) := by
  intro refs
  induction refs with
  | nil => intro h; simp at h
  | cons r rest ih =>
      intro h
      by_cases h1 : strContains ql r
      · simp only [docRefLoop, h1, hspec, if_true, Bool.false_eq_true, if_false]
      · simp only [List.any_cons, h1, Bool.false_or] at h
        simp only [docRefLoop, h1, Bool.false_eq_true, if_false]
        exact ih h

/-- C7 counterexample: for query "summarize this" with two available documents,
the fast classifier detects a vague document reference through a vagueness
pattern and produces the clarification message "You have 2 documents. Which
one would you like me to use?", which names no document at all (it does not
contain "a.pdf"), so the message does not enumerate the available names. -/
theorem c7_counterexample :
    (detect_intent_fast "summarize this" ["a.pdf", "b.pdf"]).is_vague = true
    ∧ (detect_intent_fast "summarize this" ["a.pdf", "b.pdf"]).clarification_message =
        some "You have 2 documents. Which one would you like me to use?"
    ∧ strContains "You have 2 documents. Which one would you like me to use?" "a.pdf"
        = false :=
  ⟨by decide, by decide, by decide⟩

/-- C7 (amended): the clarification message enumerates every available document
name, in caller-supplied order, only on the document-reference-phrase branch of
`_check_vagueness`: when no vagueness pattern matches, more than one document
is available, some `doc_refs` phrase occurs in the query, and no specific
document name occurs in the query, the message is the template listing all
names joined by ", " in the caller-supplied order.  When a vagueness pattern
matches, the message only reports the document count. -/
theorem c7_docref_enumerates (q : String) (docs : List String)
    (h1 : checkPatterns q = none)
    (h2 : 1 < docs.length)
    (h3 : doc_refs.any (fun r => strContains (strToLower q) r) = true)
    (h4 : docs.any (fun d => strContains (strToLower q) (strToLower d)) = false) :
    check_vagueness q docs =
      (true, some ("You have " ++ toString docs.length ++ " documents: "
        ++ strJoin ", " docs ++ ". Which one would you like me to use?")) := by
  simp only [check_vagueness, h1, h2, if_true]
  exact docRefLoop_hit (strToLower q) docs h4 doc_refs h3

theorem c7_docref_enumerates_witness :
    check_vagueness "summarize my file please" ["a.pdf", "b.pdf"] =
      (true, some "You have 2 documents: a.pdf, b.pdf. Which one would you like me to use?") :=
  (c7_docref_enumerates "summarize my file please" ["a.pdf", "b.pdf"]
    (by decide) (by decide) (by decide) (by decide)).trans (by decide)

/-- C8 counterexample: an unparsable `CONFIDENCE:` value does not default to
0.7 — `float(...)` raises a `ValueError`, so `_parse_llm_response` produces no
`DetectedIntent` at all (the error propagates to its caller). -/
theorem c8_counterexample :
    parse_llm_response "CONFIDENCE: abc" [] =
      Except.error "could not convert string to float: abc"
    ∧ ∀ r, parse_llm_response "CONFIDENCE: abc" [] ≠ Except.ok r := by
  have h0 : parse_llm_response "CONFIDENCE: abc" [] =
      Except.error "could not convert string to float: abc" := by decide
  refine ⟨h0, fun r h => ?_⟩
  rw [h0] at h
  exact Except.noConfusion h

/-- C8 (amended): `_parse_llm_response` splits each line on its first `:`; an
unknown or malformed `INTENT` label degrades to `general_chat`; a missing
`CONFIDENCE` key defaults to 0.7, but an unparsable `CONFIDENCE` value raises
a `ValueError` (caught by `detect_intent_with_llm`, which then falls back to
the fast-path result); an empty or "none" `TOOLS` list falls back to the
static category-to-tools mapping of the parsed category. -/
theorem c8_parse_defaults (resp : String) (docs : List String) :
    (assocGet (parsedMap resp) "CONFIDENCE" = none →
      parsedConfidence resp = some (mkRat 7 10))
    ∧ (intentCategoryOfString (parsedIntentStr resp) = none →
      parsedCategory resp = .general_chat)
    ∧ (∀ r, parse_llm_response resp docs = Except.ok r → parsedTools resp = [] →
      r.tools_to_use = get_tools_for_intent (parsedCategory resp))
    ∧ (∀ s, assocGet (parsedMap resp) "CONFIDENCE" = some s → parseFloatPy s = none →
      parse_llm_response resp docs =
        Except.error ("could not convert string to float: " ++ s)
      ∧ ∀ q, detect_intent_with_llm q docs (some resp) = detect_intent_fast q docs) := by
  refine ⟨?_, ?_, ?_, ?_⟩
  · intro h
    simp only [parsedConfidence, h, Option.getD_none]
    decide
  · intro h
    simp [parsedCategory, h]
  · intro r hok htools
    unfold parse_llm_response at hok
    cases hc : parsedConfidence resp with
    | none =>
        rw [hc] at hok
        exact Except.noConfusion hok
    | some c =>
        rw [hc] at hok
        dsimp only at hok
        injection hok with hok
        rw [← hok]
        simp only [DetectedIntent.make, htools, List.isEmpty_nil, if_true]
  · intro s hs hnone
    have hc : parsedConfidence resp = none := by
      unfold parsedConfidence
      rw [hs, Option.getD_some]
      exact hnone
    have herr : parse_llm_response resp docs =
        Except.error ("could not convert string to float: " ++ s) := by
      unfold parse_llm_response
      rw [hc]
      dsimp only
      rw [hs]
      rfl
    refine ⟨herr, fun q => ?_⟩
    unfold detect_intent_with_llm
    dsimp only
    split
    · rfl
    · rw [herr]

theorem c8_parse_defaults_witness :
    parsedConfidence "INTENT: bogus" = some (mkRat 7 10)
    ∧ parsedCategory "INTENT: bogus" = IntentCategory.general_chat
    ∧ (DetectedIntent.make .memory_recall (mkRat 8 10)
        ["search_memories", "get_recent_memories"] false none none
        (some [])).tools_to_use =
        get_tools_for_intent (parsedCategory "INTENT: memory_recall\nCONFIDENCE: 0.8")
    ∧ parse_llm_response "CONFIDENCE: 1.2.3" [] =
        Except.error "could not convert string to float: 1.2.3"
    ∧ detect_intent_with_llm "hello" [] (some "CONFIDENCE: 1.2.3") =
        detect_intent_fast "hello" [] := by
  refine ⟨(c8_parse_defaults "INTENT: bogus" []).1 (by decide),
    (c8_parse_defaults "INTENT: bogus" []).2.1 (by decide),
    (c8_parse_defaults "INTENT: memory_recall\nCONFIDENCE: 0.8" []).2.2.1 _
      (by decide) (by decide),
    ((c8_parse_defaults "CONFIDENCE: 1.2.3" []).2.2.2 "1.2.3" (by decide) (by decide)).1,
    ((c8_parse_defaults "CONFIDENCE: 1.2.3" []).2.2.2 "1.2.3" (by decide) (by decide)).2
      "hello"⟩

@[simp] theorem thinkingEv_type (c : String) : (thinkingEv c).type = "thinking" := rfl

@[simp] theorem intentEv_type (a : String) (b : Rat) : (intentEv a b).type = "intent" := rfl

@[simp] theorem clarificationEv_type (m : Option String) (o : List String) :
    (clarificationEv m o).type = "clarification" := rfl

@[simp] theorem toolCallEv_type (t : String) (p : Params) :
    (toolCallEv t p).type = "tool_call" := rfl

@[simp] theorem toolResultEv_type (t s : String) :
    (toolResultEv t s).type = "tool_result" := rfl

@[simp] theorem chunkEv_type (c : String) : (chunkEv c).type = "chunk" := rfl

@[simp] theorem doneEv_type (c : String) : (doneEv c).type = "done" := rfl

/-- C5: when the detected intent is vague, the event stream is exactly the two
thinking events, the intent event, and a clarification event — whose options
default to the fetched document inventory when the classifier supplied none —
and nothing after it: no tool_call, tool_result, chunk, or done event occurs
anywhere in the stream. -/
theorem c5_clarify_short_circuit (q uid cid : String) (docs : List String)
    (intent : DetectedIntent) (reg : Registry) (chunks : List String)
    (h : intent.is_vague = true) :
    process_query_events q uid cid docs intent reg chunks =
      [thinkingEv "Checking your available documents...",
       thinkingEv "Analyzing your request...",
       intentEv (categoryValue intent.category) intent.confidence,
       clarificationEv intent.clarification_message
         (pyOrList intent.clarification_options docs)]
    ∧ (intent.clarification_options = none →
        pyOrList intent.clarification_options docs = docs)
    ∧ ∀ e ∈ process_query_events q uid cid docs intent reg chunks,
        e.type ≠ "tool_call" ∧ e.type ≠ "tool_result" ∧ e.type ≠ "chunk"
          ∧ e.type ≠ "done" := by
  have h0 : process_query_events q uid cid docs intent reg chunks =
      [thinkingEv "Checking your available documents...",
       thinkingEv "Analyzing your request...",
       intentEv (categoryValue intent.category) intent.confidence,
       clarificationEv intent.clarification_message
         (pyOrList intent.clarification_options docs)] := by
    simp only [process_query_events, h, if_true]
  refine ⟨h0, fun ho => by simp [pyOrList, ho], ?_⟩
  intro e he
  rw [h0] at he
  simp only [List.mem_cons, List.not_mem_nil, or_false] at he
  rcases he with rfl | rfl | rfl | rfl <;> refine ⟨?_, ?_, ?_, ?_⟩ <;> simp

theorem c5_clarify_short_circuit_witness :
    process_query_events "summarize this" "user-1" "conv-1" ["a.pdf", "b.pdf"]
      (detect_intent_fast "summarize this" ["a.pdf", "b.pdf"]) [] ["unused"] =
      [thinkingEv "Checking your available documents...",
       thinkingEv "Analyzing your request...",
       intentEv "vague_query" (mkRat 8 10),
       clarificationEv (some "You have 2 documents. Which one would you like me to use?")
         ["a.pdf", "b.pdf"]] :=
  ((c5_clarify_short_circuit "summarize this" "user-1" "conv-1" ["a.pdf", "b.pdf"]
    (detect_intent_fast "summarize this" ["a.pdf", "b.pdf"]) [] ["unused"]
    (by decide)).1).trans (by decide)

theorem countType_cons (e : AgentEvent) (l : List AgentEvent) (t : String) :
    countType (e :: l) t = (if e.type == t then 1 else 0) + countType l t := by
  by_cases h : e.type == t
  · simp [countType, List.filter_cons, h, Nat.add_comm]
  · simp [countType, List.filter_cons, h]

theorem countType_append (l1 l2 : List AgentEvent) (t : String) :
    countType (l1 ++ l2) t = countType l1 t + countType l2 t := by
  simp [countType, List.filter_append]

theorem countType_map_chunk (cs : List String) :
    countType (cs.map chunkEv) "chunk" = cs.length
    ∧ countType (cs.map chunkEv) "tool_call" = 0
    ∧ countType (cs.map chunkEv) "tool_result" = 0
    ∧ countType (cs.map chunkEv) "done" = 0 := by
  induction cs with
  | nil => exact ⟨rfl, rfl, rfl, rfl⟩
  | cons c rest ih =>
      obtain ⟨i1, i2, i3, i4⟩ := ih
      simp [List.map_cons, countType_cons, i1, i2, i3, i4, Nat.add_comm]

theorem getLast?_append_single {α : Type} (l : List α) (x : α) :
    (l ++ [x]).getLast? = some x :=
  (List.getLast?_append_cons l x []).trans rfl

theorem build_tool_params_isOk (t q : String) (intent : DetectedIntent)
    (h : intent.extracted_entities.isSome = true) :
    ∃ ps, build_tool_params t q intent = Except.ok ps := by
  obtain ⟨e, he⟩ := Option.isSome_iff_exists.mp h
  unfold build_tool_params
  split <;> first
    | exact ⟨_, rfl⟩
    | (rw [he]; exact ⟨_, rfl⟩)

theorem toolRound_no_abort (q : String) (intent : DetectedIntent) (reg : Registry)
    (uid : String) (h : intent.extracted_entities.isSome = true) :
    ∀ ts : List String,
      (toolRound q intent reg uid ts).2 = false
      ∧ countType (toolRound q intent reg uid ts).1 "tool_call" = ts.length
      ∧ countType (toolRound q intent reg uid ts).1 "tool_result" = ts.length
      ∧ countType (toolRound q intent reg uid ts).1 "chunk" = 0
      ∧ countType (toolRound q intent reg uid ts).1 "done" = 0 := by
  intro ts
  induction ts with
  | nil => exact ⟨rfl, rfl, rfl, rfl, rfl⟩
  | cons t rest ih =>
      obtain ⟨ps, hps⟩ := build_tool_params_isOk t q intent h
      obtain ⟨ih1, ih2, ih3, ih4, ih5⟩ := ih
      simp only [toolRound, hps]
      refine ⟨ih1, ?_, ?_, ?_, ?_⟩ <;>
        simp [countType_cons, ih2, ih3, ih4, ih5, Nat.add_comm]

theorem toolRound_contains_fail (q : String) (intent : DetectedIntent) (reg : Registry)
    (uid name msg : String) (entry : ToolEntry)
    (h1 : registryLookup reg name = some entry)
    (h2 : ∀ ps, entry.handler ps = .raises msg)
    (h5 : intent.extracted_entities.isSome = true) :
    ∀ ts, name ∈ ts →
      toolResultEv name ("Error executing '" ++ name ++ "': " ++ msg)
        ∈ (toolRound q intent reg uid ts).1 := by
  intro ts
  induction ts with
  | nil => intro h; simp at h
  | cons t rest ih =>
      intro hmem
      obtain ⟨ps, hps⟩ := build_tool_params_isOk t q intent h5
      simp only [toolRound, hps]
      rcases List.mem_cons.mp hmem with rfl | hmem2
      · have hsum : (execute_tool reg name ps uid).1.summary =
            "Error executing '" ++ name ++ "': " ++ msg := by
          simp only [execute_tool, h1, h2]
        rw [hsum]
        exact List.mem_cons_of_mem _ (List.mem_cons_self _ _)
      · exact List.mem_cons_of_mem _ (List.mem_cons_of_mem _ (ih hmem2))

/-- C4: a registered handler that raises is caught by `execute_tool`, which
returns a failed `ToolResult` carrying the exception message in its error
field and propagates no exception; consequently, in the orchestrator's tool
round, the failing tool's tool_result event (with the failure summary) is in
the stream, every tool in the intent's list still gets its
tool_call/tool_result event pair, the generation chunks are all streamed, and
the stream still ends with the done event. -/
theorem c4_fault_isolated (reg : Registry) (name : String) (params : Params)
    (uid q cid msg : String) (docs chunks : List String)
    (entry : ToolEntry) (intent : DetectedIntent)
    (h1 : registryLookup reg name = some entry)
    (h2 : ∀ ps, entry.handler ps = .raises msg)
    (h3 : name ∈ intent.tools_to_use)
    (h4 : intent.is_vague = false)
    (h5 : intent.extracted_entities.isSome = true) :
    execute_tool reg name params uid =
      (⟨none, "Error executing '" ++ name ++ "': " ++ msg, false, some msg⟩, [name])
    ∧ toolResultEv name ("Error executing '" ++ name ++ "': " ++ msg)
        ∈ process_query_events q uid cid docs intent reg chunks
    ∧ countType (process_query_events q uid cid docs intent reg chunks) "tool_call"
        = intent.tools_to_use.length
    ∧ countType (process_query_events q uid cid docs intent reg chunks) "tool_result"
        = intent.tools_to_use.length
    ∧ countType (process_query_events q uid cid docs intent reg chunks) "chunk"
        = chunks.length
    ∧ (process_query_events q uid cid docs intent reg chunks).getLast?
        = some (doneEv cid) := by
  obtain ⟨ha, hc1, hc2, hc3, hc4⟩ := toolRound_no_abort q intent reg uid h5 intent.tools_to_use
  obtain ⟨m1, m2, m3, m4⟩ := countType_map_chunk chunks
  have hval : process_query_events q uid cid docs intent reg chunks =
      (thinkingEv "Checking your available documents..."
        :: thinkingEv "Analyzing your request..."
        :: intentEv (categoryValue intent.category) intent.confidence
        :: ((if intent.tools_to_use.isEmpty then ([] : List AgentEvent)
             else [thinkingEv ("Preparing to use "
               ++ toString intent.tools_to_use.length ++ " tool(s)...")])
          ++ (toolRound q intent reg uid intent.tools_to_use).1
          ++ [thinkingEv "Generating response..."]
          ++ chunks.map chunkEv)) ++ [doneEv cid] := by
    simp only [process_query_events, h4, Bool.false_eq_true, if_false, ha]
    simp [List.append_assoc]
  have hnil : ∀ t, countType [] t = 0 := fun _ => rfl
  refine ⟨?_, ?_, ?_, ?_, ?_, ?_⟩
  · simp only [execute_tool, h1, h2]
  · rw [hval]
    have hmem := toolRound_contains_fail q intent reg uid name msg entry h1 h2 h5
      intent.tools_to_use h3
    apply List.mem_append_left
    apply List.mem_cons_of_mem
    apply List.mem_cons_of_mem
    apply List.mem_cons_of_mem
    apply List.mem_append_left
    apply List.mem_append_left
    exact List.mem_append_right _ hmem
  · rw [hval]
    by_cases hni : intent.tools_to_use.isEmpty <;>
      simp [countType_cons, countType_append, hnil, hni, hc1, m2]
  · rw [hval]
    by_cases hni : intent.tools_to_use.isEmpty <;>
      simp [countType_cons, countType_append, hnil, hni, hc2, m3]
  · rw [hval]
    by_cases hni : intent.tools_to_use.isEmpty <;>
      simp [countType_cons, countType_append, hnil, hni, hc3, m1]
  · rw [hval]
    exact getLast?_append_single _ _

theorem c4_fault_isolated_witness :
    execute_tool regFaulty "search_memories" [] "user-1" =
      (⟨none, "Error executing 'search_memories': boom", false, some "boom"⟩,
        ["search_memories"])
    ∧ toolResultEv "search_memories" "Error executing 'search_memories': boom"
        ∈ process_query_events "what do you remember about my trip?" "user-1"
          "conv-1" [] (detect_intent_fast "what do you remember about my trip?" [])
          regFaulty ["Hi", " there"]
    ∧ countType (process_query_events "what do you remember about my trip?" "user-1"
        "conv-1" [] (detect_intent_fast "what do you remember about my trip?" [])
        regFaulty ["Hi", " there"]) "tool_call" = 2
    ∧ countType (process_query_events "what do you remember about my trip?" "user-1"
        "conv-1" [] (detect_intent_fast "what do you remember about my trip?" [])
        regFaulty ["Hi", " there"]) "tool_result" = 2
    ∧ countType (process_query_events "what do you remember about my trip?" "user-1"
        "conv-1" [] (detect_intent_fast "what do you remember about my trip?" [])
        regFaulty ["Hi", " there"]) "chunk" = 2
    ∧ (process_query_events "what do you remember about my trip?" "user-1"
        "conv-1" [] (detect_intent_fast "what do you remember about my trip?" [])
        regFaulty ["Hi", " there"]).getLast? = some (doneEv "conv-1") :=
  c4_fault_isolated regFaulty "search_memories" [] "user-1"
    "what do you remember about my trip?" "conv-1" "boom" [] ["Hi", " there"]
    ⟨"search_memories", "Search stored memories", [("query", "string")],
      fun _ => .raises "boom"⟩
    (detect_intent_fast "what do you remember about my trip?" [])
    rfl (fun _ => rfl) (by decide) (by decide) (by decide)
